import Mathlib

/-!
Shallow embedding of the `gee-chatbot` repository (files `app/gee_client.py`
and `app/main.py`).

The Python program is a thin client of the Earth Engine (EE) service.
Client-side EE objects (`ee.Image`, `ee.ImageCollection`, `ee.Geometry`,
`ee.Date`) are lazy computation graphs: constructing them performs no I/O,
so they are embedded as inductive ASTs.  The only effectful operations are
the network calls `getInfo`, `getThumbURL`, `getVideoThumbURL` and the
one-time session initialization; their behaviour is abstracted into an
environment `Env` of fallible response functions, and the handler runs in a
monad `M` that both may fail (Python exceptions become `Except.error`) and
logs every outbound request (so that theorems can speak about which
requests were issued and with which region).

Loosely-typed Python values (request parameters, JSON payloads) are
embedded as the inductive type `Value`; Python floats are embedded as
exact rationals.
-/

/-- A loosely-typed Python/JSON value: `None`, `bool`, `int`, `float`
(embedded as an exact rational), `str`, `list`/`tuple`, `dict`. -/
inductive Value where
  | vnull : Value
  | vbool (b : Bool) : Value
  | vint (n : Int) : Value
  | vnum (q : Rat) : Value
  | vstr (s : String) : Value
  | vlist (l : List Value) : Value
  | vobj (fields : List (String × Value)) : Value
  deriving Repr

/-- Python truthiness (`bool(x)`): `None`, `False`, zero, and empty
containers/strings are falsy; everything else is truthy. -/
def Value.truthy : Value → Bool
  | .vnull => false
  | .vbool b => b
  | .vint n => n != 0
  | .vnum q => q != 0
  | .vstr s => s ≠ ""
  | .vlist l => !l.isEmpty
  | .vobj f => !f.isEmpty

/-- Whether a value is a Python `list` or `tuple`
(`isinstance(x, (list, tuple))`). -/
def Value.isList : Value → Bool
  | .vlist _ => true
  | _ => false

/-- Whether a value is numeric (`int` or `float`). -/
def Value.isNum : Value → Bool
  | .vint _ => true
  | .vnum _ => true
  | _ => false

/-- Python `int(x)`: identity on ints, truncation toward zero on floats,
0/1 on bools, decimal parse on strings; `None`, lists and dicts are not
coercible. -/
def Value.toIntCoe : Value → Option Int
  | .vint n => some n
  | .vnum q => some (q.num / (q.den : Int))
  | .vbool b => some (if b then 1 else 0)
  | .vstr s => s.trim.toInt?
  | _ => none

/-- A request-parameter map (the JSON object posted to `/chat`),
embedded as an association list. -/
def Params := List (String × Value)

/-- Python `dict.get(key, default)`. -/
def Params.getD (p : Params) (k : String) (d : Value) : Value :=
  match p.lookup k with
  | some v => v
  | none => d

/-- `int(x)` as a fallible operation: returns the coerced integer, or the
exception a Python `int()` call would raise. -/
def pyInt (v : Value) : Except String Int :=
  match v.toIntCoe with
  | some n => Except.ok n
  | none => Except.error "invalid argument to int()"

/-! ## Module-level constants of `gee_client.py` -/

/-- `YEARS = [2020, 2021, 2022, 2023, 2024]` -/
def YEARS : List Int := [2020, 2021, 2022, 2023, 2024]

/-- `CLASS_PALETTE` -/
def CLASS_PALETTE : List String :=
  ["419bdf", "397d49", "88b053", "7a87c6", "e49635",
   "dfc35a", "c4281b", "a59b8f", "b39fe1"]

/-- `CHANGE_COLOR = 'ff00ff'` -/
def CHANGE_COLOR : String := "ff00ff"

/-- `RECT_BOUNDS = [54.16, 24.29, 54.74, 24.61]` (Abu Dhabi block). -/
def RECT_BOUNDS : List Value :=
  [.vnum 54.16, .vnum 24.29, .vnum 54.74, .vnum 24.61]

/-! ## Client-side EE computation graphs -/

/-- `ee.Geometry.Rectangle(coords, proj, geodesic)`: a client-side
geometry object recording its construction arguments. -/
structure Geometry where
  coords : List Value
  proj : Option String
  geodesic : Bool
  deriving Repr

/-- `ee.Geometry.Rectangle` -/
def Geometry.Rectangle (coords : List Value) (proj : Option String)
    (geodesic : Bool) : Geometry :=
  ⟨coords, proj, geodesic⟩

/-- `ee.Date` expressions (`fromYMD`, `advance`). -/
inductive EEDate where
  | fromYMD (y m d : Int) : EEDate
  | advance (base : EEDate) (n : Int) (unit : String) : EEDate
  deriving Repr, DecidableEq

mutual
/-- Client-side `ee.Image` computation graphs: each constructor is one of
the image operations the repository uses. -/
inductive EEImage where
  | mode (c : EEColl) : EEImage
  | median (c : EEColl) : EEImage
  | clip (img : EEImage) (g : Geometry) : EEImage
  | unmask (img : EEImage) (v : Int) : EEImage
  | setTimeStart (img : EEImage) (t : EEDate) : EEImage
  | visualize (img : EEImage) (bands : Option (List String))
      (minMax : Option (Int × Int)) (palette : Option (List String)) : EEImage
  | neq (a b : EEImage) : EEImage
  | selfMask (img : EEImage) : EEImage

/-- Client-side `ee.ImageCollection` computation graphs. -/
inductive EEColl where
  | dataset (name : String) : EEColl
  | filterBounds (c : EEColl) (g : Geometry) : EEColl
  | filterDate (c : EEColl) (start stop : EEDate) : EEColl
  | select (c : EEColl) (band : String) : EEColl
  | filterLt (c : EEColl) (prop : String) (v : Int) : EEColl
  | fromImages (imgs : List EEImage) : EEColl
end

/-- The reducer used by the histogram sub-request. -/
inductive Reducer where
  | frequencyHistogram : Reducer
  deriving Repr, DecidableEq

/-- `yearly_dw_label(year, roi)`: mode of the Dynamic World labels of one
calendar year, clipped to the region, unmasked to class 0, time-stamped. -/
def yearly_dw_label (year : Int) (roi : Geometry) : EEImage :=
  let start := EEDate.fromYMD year 1 1
  let stop := start.advance 1 "year"
  let coll := (((EEColl.dataset "GOOGLE/DYNAMICWORLD/V1").filterBounds roi).filterDate
      start stop).select "label"
  (((EEImage.mode coll).clip roi).unmask 0).setTimeStart start

/-- `yearly_s2_rgb(year, roi)`: cloud-filtered Sentinel-2 median of one
calendar year, clipped and visualized as true colour. -/
def yearly_s2_rgb (year : Int) (roi : Geometry) : EEImage :=
  let start := EEDate.fromYMD year 1 1
  let coll := (((EEColl.dataset "COPERNICUS/S2_HARMONIZED").filterBounds roi).filterDate
      start (start.advance 1 "year")).filterLt "CLOUDY_PIXEL_PERCENTAGE" 30
  let med := (EEImage.median coll).clip roi
  med.visualize (some ["B4", "B3", "B2"]) (some (0, 3000)) none

/-- `ee.List.sequence(a, b)`: the inclusive integer range. -/
def seqList (a b : Int) : List Int :=
  if b < a then [] else (List.range (b - a + 1).toNat).map (fun i => a + i)

/-- `build_vis_collection_range(y_start, y_end, roi)`: one colorized
classification frame per year of the range. -/
def build_vis_collection_range (y_start y_end : Int) (roi : Geometry) : EEColl :=
  EEColl.fromImages ((seqList y_start y_end).map (fun y =>
    ((yearly_dw_label y roi).visualize none (some (0, 8))
        (some CLASS_PALETTE)).setTimeStart (EEDate.fromYMD y 1 1)))

/-- `make_change_layer(yA, yB, roi)`: mask of pixels whose label differs
between the two years, rendered in the single change colour. -/
def make_change_layer (yA yB : Int) (roi : Geometry) : EEImage :=
  let imgA := yearly_dw_label yA roi
  let imgB := yearly_dw_label yB roi
  let ch := ((imgA.neq imgB).selfMask).clip roi
  ch.visualize none none (some [CHANGE_COLOR])

/-- `get_roi_from_params(params)`: the region of interest.  The Python
condition is `bounds and isinstance(bounds, (list, tuple)) and
len(bounds) == 4`; anything else falls back to `RECT_BOUNDS`. -/
def get_roi_from_params (params : Params) : Geometry :=
  let bounds := params.getD "bounds" .vnull
  match bounds with
  | .vlist l =>
      if (Value.vlist l).truthy && l.length == 4 then
        Geometry.Rectangle l none false
      else
        Geometry.Rectangle RECT_BOUNDS none false
  | _ => Geometry.Rectangle RECT_BOUNDS none false

/-! ## The external service and the effect monad -/

/-- The Earth Engine client's global session state (`ee.data._initialized`). -/
structure EEState where
  initialized : Bool
  deriving Repr, DecidableEq

/-- Behaviour of everything outside the program: the process environment
and the remote service's response (or exception) to each kind of call. -/
structure Env where
  /-- `os.environ.get(name)` -/
  getenv : String → Option String
  /-- `json.loads` + `service_account.Credentials.from_service_account_info`
  + `ee.Initialize`, collapsed into one fallible step on the key text. -/
  initCred : String → Except String Unit
  /-- `region.bounds().getInfo()['coordinates']` -/
  boundsInfo : Geometry → Except String Value
  /-- `image.getThumbURL({region, dimensions})` -/
  thumbURL : EEImage → Value → Int → Except String String
  /-- `coll.getVideoThumbURL({region, framesPerSecond, dimensions})` -/
  videoThumbURL : EEColl → Value → Int → Int → Except String String
  /-- `image.reduceRegion(reducer, geometry, scale, maxPixels).getInfo()` -/
  reduceInfo : EEImage → Reducer → Geometry → Int → Rat → Except String Value

/-- `initialize_ee_from_env()`: return immediately when already
initialized; otherwise require the key env var (Python truthiness: unset
or empty raises), then run the credential/initialize chain. -/
def initialize_ee_from_env (env : Env) (st : EEState) : Except String EEState :=
  if st.initialized then Except.ok st
  else
    match env.getenv "GEE_SERVICE_ACCOUNT_KEY" with
    | none => Except.error "GEE_SERVICE_ACCOUNT_KEY not set in environment."
    | some key_json =>
      if key_json = "" then
        Except.error "GEE_SERVICE_ACCOUNT_KEY not set in environment."
      else
        match env.initCred key_json with
        | Except.error e => Except.error e
        | Except.ok _ => Except.ok { initialized := true }

/-- One outbound request to the remote service, as recorded in the trace. -/
inductive Req where
  | getBoundsInfo (g : Geometry) : Req
  | getThumb (img : EEImage) (g : Geometry) (dims : Int) : Req
  | getVideoThumb (c : EEColl) (g : Geometry) (fps dims : Int) : Req
  | reduceRegion (img : EEImage) (red : Reducer) (g : Geometry)
      (scale : Int) (maxPixels : Rat) : Req

/-- The geometry argument a request was issued with. -/
def Req.region : Req → Geometry
  | .getBoundsInfo g => g
  | .getThumb _ g _ => g
  | .getVideoThumb _ g _ _ => g
  | .reduceRegion _ _ g _ _ => g

/-- Whether a request is an animated-thumbnail (video) request. -/
def Req.isVideoReq : Req → Bool
  | .getVideoThumb _ _ _ _ => true
  | _ => false

/-- The handler's effect monad: a request trace plus Python-style
exceptions. -/
def M (α : Type) : Type := List Req → Except String α × List Req

/-- Monadic bind for `M`: propagate the exception, keep the trace. -/
def M.bind (x : M α) (f : α → M β) : M β := fun log =>
  match x log with
  | (Except.ok a, log') => f a log'
  | (Except.error e, log') => (Except.error e, log')

/-- Monadic pure for `M`. -/
def M.pure (a : α) : M α := fun log => (Except.ok a, log)

instance : Monad M where
  pure := M.pure
  bind := M.bind

/-- Record one outbound request in the trace. -/
def M.logReq (r : Req) : M Unit := fun log => (Except.ok (), log ++ [r])

/-- Run a fallible external response inside `M`. -/
def M.liftExc (x : Except String α) : M α := fun log => (x, log)

/-- A Python `try/except` block: turn an exception into a value. -/
def M.attempt (x : M α) : M (Except String α) := fun log =>
  match x log with
  | (Except.ok a, log') => (Except.ok (Except.ok a), log')
  | (Except.error e, log') => (Except.ok (Except.error e), log')

/-- `image_thumbnail_url(image, region, dims)`: fetch the region's bound
coordinates, then request a thumbnail URL for the image. -/
def image_thumbnail_url (env : Env) (image : EEImage) (region : Geometry)
    (dims : Int) : M String := do
  M.logReq (Req.getBoundsInfo region)
  let coords ← M.liftExc (env.boundsInfo region)
  M.logReq (Req.getThumb image region dims)
  M.liftExc (env.thumbURL image coords dims)

/-- `collection_video_thumb_url(coll, region, fps, dims)`: fetch the
region's bound coordinates, then request an animated-thumbnail URL. -/
def collection_video_thumb_url (env : Env) (coll : EEColl) (region : Geometry)
    (fps : Int) (dims : Int) : M String := do
  M.logReq (Req.getBoundsInfo region)
  let coords ← M.liftExc (env.boundsInfo region)
  M.logReq (Req.getVideoThumb coll region fps dims)
  M.liftExc (env.videoThumbURL coll coords fps dims)

/-- The `urls` mapping of the result payload (five labeled image URLs). -/
structure Urls where
  dw_A_thumb : String
  dw_B_thumb : String
  s2_A_thumb : String
  s2_B_thumb : String
  change_thumb : String
  deriving Repr, DecidableEq

/-- The result object assembled by `run_gee_task`. -/
structure TaskResult where
  summary : String
  yearA : Int
  yearB : Int
  urls : Urls
  histogram_yearA : Value
  video_url : Option String
  deriving Repr

/-- `run_gee_task(params)`: normalize the parameters, build the five
composites, request their thumbnail URLs, attempt the histogram and the
optional animated thumbnail, and assemble the result object. -/
def run_gee_task (env : Env) (st : EEState) (params : Params) : M TaskResult := do
  let _ ← M.liftExc (initialize_ee_from_env env st)

  let yearA ← M.liftExc (pyInt (params.getD "yearA" (.vint (YEARS.getD 0 0))))
  let yearB ← M.liftExc (pyInt (params.getD "yearB" (.vint (YEARS.getD (YEARS.length - 1) 0))))
  let p := if yearA > yearB then (yearB, yearA) else (yearA, yearB)
  let yearA := p.1
  let yearB := p.2

  let roi := get_roi_from_params params
  let thumb_dims ← M.liftExc (pyInt (params.getD "thumb_dims" (.vint 768)))
  let produce_video := (params.getD "video" (.vbool false)).truthy
  let video_fps ← M.liftExc (pyInt (params.getD "video_fps" (.vint 1)))

  let dw_vis_A := (yearly_dw_label yearA roi).visualize none (some (0, 8)) (some CLASS_PALETTE)
  let dw_vis_B := (yearly_dw_label yearB roi).visualize none (some (0, 8)) (some CLASS_PALETTE)
  let s2_vis_A := yearly_s2_rgb yearA roi
  let s2_vis_B := yearly_s2_rgb yearB roi
  let change_vis := make_change_layer yearA yearB roi

  let dw_A_thumb ← image_thumbnail_url env dw_vis_A roi thumb_dims
  let dw_B_thumb ← image_thumbnail_url env dw_vis_B roi thumb_dims
  let s2_A_thumb ← image_thumbnail_url env s2_vis_A roi thumb_dims
  let s2_B_thumb ← image_thumbnail_url env s2_vis_B roi thumb_dims
  let change_thumb ← image_thumbnail_url env change_vis roi thumb_dims
  let urls : Urls := ⟨dw_A_thumb, dw_B_thumb, s2_A_thumb, s2_B_thumb, change_thumb⟩

  let freqTry ← M.attempt (do
    M.logReq (Req.reduceRegion (yearly_dw_label yearA roi) .frequencyHistogram roi 30 1000000000)
    M.liftExc (env.reduceInfo (yearly_dw_label yearA roi) .frequencyHistogram roi 30 1000000000))
  let freqA : Value :=
    match freqTry with
    | Except.ok v => v
    | Except.error e => .vobj [("error", .vstr e)]

  let video_url ←
    if produce_video then do
      let vis_coll := build_vis_collection_range yearA yearB roi
      let r ← M.attempt (collection_video_thumb_url env vis_coll roi video_fps thumb_dims)
      match r with
      | Except.ok u => M.pure (some u)
      | Except.error _ => M.pure none
    else M.pure none

  let summary_text := s!"Dynamic World for years {yearA} → {yearB} over the Abu Dhabi city block."

  M.pure {
    summary := summary_text
    yearA := yearA
    yearB := yearB
    urls := urls
    histogram_yearA := freqA
    video_url := video_url
  }

/-! ## The HTTP route (`app/main.py`) -/

/-- An HTTP response: status code and JSON body. -/
structure HttpResponse where
  status : Nat
  body : Value
  deriving Repr

/-- JSON encoding of the result object (the 200 response body). -/
def TaskResult.toValue (r : TaskResult) : Value :=
  .vobj [
    ("summary", .vstr r.summary),
    ("yearA", .vint r.yearA),
    ("yearB", .vint r.yearB),
    ("urls", .vobj [
      ("dw_A_thumb", .vstr r.urls.dw_A_thumb),
      ("dw_B_thumb", .vstr r.urls.dw_B_thumb),
      ("s2_A_thumb", .vstr r.urls.s2_A_thumb),
      ("s2_B_thumb", .vstr r.urls.s2_B_thumb),
      ("change_thumb", .vstr r.urls.change_thumb)]),
    ("histogram_yearA", r.histogram_yearA),
    ("video_url", match r.video_url with
      | some u => .vstr u
      | none => .vnull)
  ]

/-- `POST /chat`: delegate to `run_gee_task`; on success return its result
as JSON with status 200, on any exception return `{"error": msg}` with
status 500.  The issued-request trace is returned alongside. -/
def chat (env : Env) (st : EEState) (data : Params) : HttpResponse × List Req :=
  match run_gee_task env st data [] with
  | (Except.ok r, log) => (⟨200, r.toValue⟩, log)
  | (Except.error e, log) => (⟨500, .vobj [("error", .vstr e)]⟩, log)

/-- `GET /`: the fixed liveness message. -/
def root : HttpResponse :=
  ⟨200, .vobj [("message", .vstr "GEE Dynamic World API is running")]⟩

/-! ## Concrete environments and parameter maps (for closed evaluations) -/

/-- An environment in which every external call succeeds. -/
def envOk : Env :=
  ⟨fun _ => some "service-account-key",
   fun _ => Except.ok (),
   fun _ => Except.ok (.vlist []),
   fun _ _ _ => Except.ok "http://img",
   fun _ _ _ _ => Except.ok "http://video",
   fun _ _ _ _ _ => Except.ok (.vobj [("0", .vint 100)])⟩

/-- `envOk`, except that the process environment has no service key. -/
def envNoKey : Env := { envOk with getenv := fun _ => none }

/-- `envOk`, except that every histogram call raises. -/
def envHistFail : Env :=
  { envOk with reduceInfo := fun _ _ _ _ _ => Except.error "histogram failed" }

/-- `envOk`, except that every animated-thumbnail call raises. -/
def envVideoFail : Env :=
  { envOk with videoThumbURL := fun _ _ _ _ => Except.error "video failed" }

/-- A session that has already been initialized. -/
def stInit : EEState := ⟨true⟩

/-- A fresh, uninitialized session. -/
def stFresh : EEState := ⟨false⟩

/-- A parameter map with the years out of order. -/
def params0 : Params := [("yearA", .vint 2024), ("yearB", .vint 2020)]

/-- A parameter map requesting the animated output. -/
def paramsVideo : Params :=
  [("yearA", .vint 2020), ("yearB", .vint 2022), ("video", .vbool true)]

/-- A parameter map with custom, well-formed bounds. -/
def paramsBounds : Params :=
  [("bounds", .vlist [.vnum 10, .vnum 20, .vnum 11, .vnum 21])]

/-- The default region of interest. -/
def roi0 : Geometry := Geometry.Rectangle RECT_BOUNDS none false

/-- The result `run_gee_task` assembles for `params0` under `envOk`. -/
def r0 : TaskResult :=
  ⟨"Dynamic World for years 2020 → 2024 over the Abu Dhabi city block.",
   2020, 2024,
   ⟨"http://img", "http://img", "http://img", "http://img", "http://img"⟩,
   .vobj [("0", .vint 100)], none⟩

/-- The requests `run_gee_task` issues for `params0` under `envOk`. -/
def log0 : List Req :=
  [.getBoundsInfo roi0,
   .getThumb ((yearly_dw_label 2020 roi0).visualize none (some (0, 8)) (some CLASS_PALETTE)) roi0 768,
   .getBoundsInfo roi0,
   .getThumb ((yearly_dw_label 2024 roi0).visualize none (some (0, 8)) (some CLASS_PALETTE)) roi0 768,
   .getBoundsInfo roi0,
   .getThumb (yearly_s2_rgb 2020 roi0) roi0 768,
   .getBoundsInfo roi0,
   .getThumb (yearly_s2_rgb 2024 roi0) roi0 768,
   .getBoundsInfo roi0,
   .getThumb (make_change_layer 2020 2024 roi0) roi0 768,
   .reduceRegion (yearly_dw_label 2020 roi0) .frequencyHistogram roi0 30 1000000000]

/-! ## Evaluation lemmas for the effect monad -/

/-- Unfolding `>>=` on `M`. -/
theorem M.bind_apply (x : M α) (f : α → M β) (log : List Req) :
    (x >>= f) log =
      match x log with
      | (Except.ok a, log') => f a log'
      | (Except.error e, log') => (Except.error e, log') := rfl

/-- Unfolding `pure` on `M`. -/
theorem M.pure_apply (a : α) (log : List Req) :
    (Pure.pure a : M α) log = (Except.ok a, log) := rfl

/-- Unfolding `M.pure`. -/
theorem M.pure_def (a : α) (log : List Req) :
    (M.pure a : M α) log = (Except.ok a, log) := rfl

/-- Unfolding `M.liftExc`. -/
theorem M.liftExc_apply (x : Except String α) (log : List Req) :
    M.liftExc x log = (x, log) := rfl

/-- Unfolding `M.logReq`. -/
theorem M.logReq_apply (r : Req) (log : List Req) :
    M.logReq r log = (Except.ok (), log ++ [r]) := rfl

/-- Unfolding `M.attempt`. -/
theorem M.attempt_apply (x : M α) (log : List Req) :
    M.attempt x log =
      match x log with
      | (Except.ok a, log') => (Except.ok (Except.ok a), log')
      | (Except.error e, log') => (Except.ok (Except.error e), log') := rfl

/-- Evaluating `image_thumbnail_url`: one bounds request, then one
thumbnail request. -/
theorem image_thumbnail_url_apply (env : Env) (image : EEImage)
    (region : Geometry) (dims : Int) (log : List Req) :
    image_thumbnail_url env image region dims log =
      match env.boundsInfo region with
      | Except.ok coords =>
          (env.thumbURL image coords dims,
            log ++ [Req.getBoundsInfo region, Req.getThumb image region dims])
      | Except.error e => (Except.error e, log ++ [Req.getBoundsInfo region]) := by
  rcases hb : env.boundsInfo region with e | c <;>
    simp [image_thumbnail_url, M.bind_apply, M.liftExc_apply, M.logReq_apply, hb,
      List.append_assoc]

/-- Evaluating `collection_video_thumb_url`: one bounds request, then one
animated-thumbnail request. -/
theorem collection_video_thumb_url_apply (env : Env) (coll : EEColl)
    (region : Geometry) (fps dims : Int) (log : List Req) :
    collection_video_thumb_url env coll region fps dims log =
      match env.boundsInfo region with
      | Except.ok coords =>
          (env.videoThumbURL coll coords fps dims,
            log ++ [Req.getBoundsInfo region, Req.getVideoThumb coll region fps dims])
      | Except.error e => (Except.error e, log ++ [Req.getBoundsInfo region]) := by
  rcases hb : env.boundsInfo region with e | c <;>
    simp [collection_video_thumb_url, M.bind_apply, M.liftExc_apply, M.logReq_apply, hb,
      List.append_assoc]

/-- `YEARS[0]` -/
theorem YEARS_first : YEARS.getD 0 0 = 2020 := rfl

/-- `YEARS[-1]` -/
theorem YEARS_last : YEARS.getD (YEARS.length - 1) 0 = 2024 := rfl

/-- Characterization of every normal return of `run_gee_task`: the two
coercions succeeded, the returned years are the sorted input years, every
issued request used the resolved region of interest, and when the video
flag is falsy the video field is `none` and no video request was issued. -/
theorem run_gee_task_ok_spec (env : Env) (st : EEState) (params : Params)
    (r : TaskResult) (log : List Req)
    (h : run_gee_task env st params [] = (Except.ok r, log)) :
    ∃ a b,
      pyInt (params.getD "yearA" (.vint 2020)) = Except.ok a ∧
      pyInt (params.getD "yearB" (.vint 2024)) = Except.ok b ∧
      r.yearA = (if a > b then b else a) ∧
      r.yearB = (if a > b then a else b) ∧
      (∀ req ∈ log, req.region = get_roi_from_params params) ∧
      ((params.getD "video" (.vbool false)).truthy = false →
        r.video_url = none ∧ ∀ req ∈ log, req.isVideoReq = false) := by
  simp only [run_gee_task, image_thumbnail_url_apply, collection_video_thumb_url_apply,
    M.bind_apply, M.pure_def, M.pure_apply, M.liftExc_apply, M.logReq_apply,
    M.attempt_apply, ite_apply, YEARS_first, YEARS_last, List.append_assoc] at h
  set roi := get_roi_from_params params with hroi
  rcases hI : initialize_ee_from_env env st with eI | st'
  · simp only [hI] at h; exact absurd h (by simp)
  simp only [hI] at h
  rcases hA : pyInt (params.getD "yearA" (Value.vint 2020)) with eA | a
  · simp only [hA] at h; exact absurd h (by simp)
  simp only [hA] at h
  rcases hB : pyInt (params.getD "yearB" (Value.vint 2024)) with eB | b
  · simp only [hB] at h; exact absurd h (by simp)
  simp only [hB] at h
  generalize hyp : (if a > b then (b, a) else (a, b)) = yp at h
  rcases hTD : pyInt (params.getD "thumb_dims" (Value.vint 768)) with eTD | td
  · simp only [hTD] at h; exact absurd h (by simp)
  simp only [hTD] at h
  rcases hFPS : pyInt (params.getD "video_fps" (Value.vint 1)) with eF | fps
  · simp only [hFPS] at h; exact absurd h (by simp)
  simp only [hFPS] at h
  rcases hRB : env.boundsInfo roi with eRB | coords
  · simp only [hRB] at h; exact absurd h (by simp)
  simp only [hRB] at h
  rcases hT1 : env.thumbURL ((yearly_dw_label yp.1 roi).visualize none (some (0, 8))
      (some CLASS_PALETTE)) coords td with eT1 | u1
  · simp only [hT1] at h; exact absurd h (by simp)
  simp only [hT1] at h
  rcases hT2 : env.thumbURL ((yearly_dw_label yp.2 roi).visualize none (some (0, 8))
      (some CLASS_PALETTE)) coords td with eT2 | u2
  · simp only [hT2] at h; exact absurd h (by simp)
  simp only [hT2] at h
  rcases hT3 : env.thumbURL (yearly_s2_rgb yp.1 roi) coords td with eT3 | u3
  · simp only [hT3] at h; exact absurd h (by simp)
  simp only [hT3] at h
  rcases hT4 : env.thumbURL (yearly_s2_rgb yp.2 roi) coords td with eT4 | u4
  · simp only [hT4] at h; exact absurd h (by simp)
  simp only [hT4] at h
  rcases hT5 : env.thumbURL (make_change_layer yp.1 yp.2 roi) coords td with eT5 | u5
  · simp only [hT5] at h; exact absurd h (by simp)
  simp only [hT5] at h
  rcases hRR : env.reduceInfo (yearly_dw_label yp.1 roi) Reducer.frequencyHistogram roi
      30 1000000000 with eRR | hist <;>
    simp only [hRR] at h <;>
    by_cases hv : (params.getD "video" (Value.vbool false)).truthy = true <;>
    simp only [hv, if_true, if_false, iff_true, M.attempt_apply, M.bind_apply, M.pure_def,
      M.pure_apply, M.liftExc_apply, M.logReq_apply, collection_video_thumb_url_apply,
      hRB, List.append_assoc, ite_apply] at h
  case pos =>
    rcases hVT : env.videoThumbURL (build_vis_collection_range yp.1 yp.2 roi) coords fps td
        with eVT | vu <;>
      simp only [hVT, M.bind_apply, M.pure_def, Prod.mk.injEq, Except.ok.injEq] at h <;>
      obtain ⟨hr, hlog⟩ := h <;>
      subst hr <;> subst hlog <;> subst hyp <;>
      refine ⟨a, b, rfl, rfl, by by_cases hab : a > b <;> simp [hab],
        by by_cases hab : a > b <;> simp [hab], by simp [Req.region], ?_⟩ <;>
      (intro hv'; rw [hv'] at hv; exact absurd hv (by simp))
  case neg =>
    simp only [Bool.false_eq_true, if_false, M.bind_apply, M.pure_def, Prod.mk.injEq,
      Except.ok.injEq] at h
    obtain ⟨hr, hlog⟩ := h
    subst hr; subst hlog; subst hyp
    refine ⟨a, b, rfl, rfl, by by_cases hab : a > b <;> simp [hab],
      by by_cases hab : a > b <;> simp [hab], by simp [Req.region], ?_⟩
    intro hv'
    exact ⟨rfl, by simp [Req.isVideoReq]⟩
  case pos =>
    rcases hVT : env.videoThumbURL (build_vis_collection_range yp.1 yp.2 roi) coords fps td
        with eVT | vu <;>
      simp only [hVT, M.bind_apply, M.pure_def, Prod.mk.injEq, Except.ok.injEq] at h <;>
      obtain ⟨hr, hlog⟩ := h <;>
      subst hr <;> subst hlog <;> subst hyp <;>
      refine ⟨a, b, rfl, rfl, by by_cases hab : a > b <;> simp [hab],
        by by_cases hab : a > b <;> simp [hab], by simp [Req.region], ?_⟩ <;>
      (intro hv'; rw [hv'] at hv; exact absurd hv (by simp))
  case neg =>
    simp only [Bool.false_eq_true, if_false, M.bind_apply, M.pure_def, Prod.mk.injEq,
      Except.ok.injEq] at h
    obtain ⟨hr, hlog⟩ := h
    subst hr; subst hlog; subst hyp
    refine ⟨a, b, rfl, rfl, by by_cases hab : a > b <;> simp [hab],
      by by_cases hab : a > b <;> simp [hab], by simp [Req.region], ?_⟩
    intro hv'
    exact ⟨rfl, by simp [Req.isVideoReq]⟩

/-- C1: for every input parameter map with integer-coercible `yearA` and
`yearB`, a normal result of `run_gee_task` satisfies `yearA ≤ yearB`: the
two coerced values are swapped when out of order and returned unchanged
otherwise. -/
theorem run_gee_task_years_sorted (env : Env) (st : EEState) (params : Params)
    (a b : Int) (r : TaskResult) (log : List Req)
    (ha : pyInt (params.getD "yearA" (.vint 2020)) = Except.ok a)
    (hb : pyInt (params.getD "yearB" (.vint 2024)) = Except.ok b)
    (h : run_gee_task env st params [] = (Except.ok r, log)) :
    r.yearA ≤ r.yearB ∧
      (a > b → r.yearA = b ∧ r.yearB = a) ∧
      (¬a > b → r.yearA = a ∧ r.yearB = b) := by
  obtain ⟨a', b', ha', hb', hA, hB, _, _⟩ := run_gee_task_ok_spec env st params r log h
  rw [ha] at ha'
  rw [hb] at hb'
  injection ha' with ha2
  injection hb' with hb2
  subst ha2
  subst hb2
  refine ⟨?_, ?_, ?_⟩
  · rw [hA, hB]; by_cases hab : a > b <;> simp [hab] <;> omega
  · intro hab; rw [hA, hB]; simp [hab]
  · intro hab; rw [hA, hB]; simp [hab]

/-- C1 witness: with input `yearA = 2024`, `yearB = 2020` the years come
back swapped. -/
theorem run_gee_task_years_sorted_witness :
    pyInt (params0.getD "yearA" (.vint 2020)) = Except.ok 2024 ∧
    pyInt (params0.getD "yearB" (.vint 2024)) = Except.ok 2020 ∧
    run_gee_task envOk stInit params0 [] = (Except.ok r0, log0) ∧
    (r0.yearA ≤ r0.yearB ∧
      ((2024 : Int) > 2020 → r0.yearA = 2020 ∧ r0.yearB = 2024) ∧
      (¬(2024 : Int) > 2020 → r0.yearA = 2024 ∧ r0.yearB = 2020)) :=
  ⟨rfl, rfl, rfl,
    run_gee_task_years_sorted envOk stInit params0 2024 2020 r0 log0 rfl rfl rfl⟩

/-- C8: within a single `run_gee_task` call the region of interest is the
one resolved from the parameters, and every outbound request — bounds
fetches, all five thumbnail requests, the histogram reduction and the
animated-sequence request when attempted — carries that same region. -/
theorem run_gee_task_uniform_roi (env : Env) (st : EEState) (params : Params)
    (r : TaskResult) (log : List Req)
    (h : run_gee_task env st params [] = (Except.ok r, log)) :
    ∀ req ∈ log, req.region = get_roi_from_params params := by
  obtain ⟨_, _, _, _, _, _, hreg, _⟩ := run_gee_task_ok_spec env st params r log h
  exact hreg

/-- C8 witness: the eleven requests of a concrete run all carry the
default region. -/
theorem run_gee_task_uniform_roi_witness :
    run_gee_task envOk stInit params0 [] = (Except.ok r0, log0) ∧
    ∀ req ∈ log0, req.region = get_roi_from_params params0 :=
  ⟨rfl, run_gee_task_uniform_roi envOk stInit params0 r0 log0 rfl⟩

/-- C9: if the `video` parameter is falsy or absent, a normal result has
`video_url = none` and no animated-thumbnail request was issued. -/
theorem run_gee_task_video_absent (env : Env) (st : EEState) (params : Params)
    (r : TaskResult) (log : List Req)
    (hv : (params.getD "video" (.vbool false)).truthy = false)
    (h : run_gee_task env st params [] = (Except.ok r, log)) :
    r.video_url = none ∧ ∀ req ∈ log, req.isVideoReq = false := by
  obtain ⟨_, _, _, _, _, _, _, hvid⟩ := run_gee_task_ok_spec env st params r log h
  exact hvid hv

/-- C9 witness: a concrete run without the video flag yields a null video
URL and a trace without any video request. -/
theorem run_gee_task_video_absent_witness :
    (params0.getD "video" (.vbool false)).truthy = false ∧
    run_gee_task envOk stInit params0 [] = (Except.ok r0, log0) ∧
    (r0.video_url = none ∧ ∀ req ∈ log0, req.isVideoReq = false) :=
  ⟨rfl, rfl, run_gee_task_video_absent envOk stInit params0 r0 log0 rfl rfl⟩

/-- C2: when the video flag is truthy, every fallible step of producing
the animated output is inside the handler's `try`: if the
animated-thumbnail request fails (for any backend whose mandatory calls
succeed), `run_gee_task` still returns normally with `video_url = none`
instead of propagating the exception.  (Building the per-year frame
collection is client-side graph construction and cannot raise.) -/
theorem run_gee_task_video_failure_null (env : Env) (st : EEState) (params : Params)
    (bi : Geometry → Value) (tu : EEImage → Value → Int → String)
    (ri : EEImage → Reducer → Geometry → Int → Rat → Value) (msg : String)
    (a b td fps : Int)
    (hst : st.initialized = true)
    (hbi : ∀ g, env.boundsInfo g = Except.ok (bi g))
    (htu : ∀ i c d, env.thumbURL i c d = Except.ok (tu i c d))
    (hri : ∀ i red g s m, env.reduceInfo i red g s m = Except.ok (ri i red g s m))
    (hvt : ∀ c cs f d, env.videoThumbURL c cs f d = Except.error msg)
    (ha : pyInt (params.getD "yearA" (.vint 2020)) = Except.ok a)
    (hb : pyInt (params.getD "yearB" (.vint 2024)) = Except.ok b)
    (htd : pyInt (params.getD "thumb_dims" (.vint 768)) = Except.ok td)
    (hf : pyInt (params.getD "video_fps" (.vint 1)) = Except.ok fps)
    (hv : (params.getD "video" (.vbool false)).truthy = true) :
    ∃ r log, run_gee_task env st params [] = (Except.ok r, log) ∧ r.video_url = none := by
  have hI : initialize_ee_from_env env st = Except.ok st := by
    simp [initialize_ee_from_env, hst]
  simp only [run_gee_task, image_thumbnail_url_apply, collection_video_thumb_url_apply,
    M.bind_apply, M.attempt_apply, M.pure_def, M.pure_apply, M.liftExc_apply, M.logReq_apply,
    ite_apply, YEARS_first, YEARS_last, hI, ha, hb, htd, hf, hv, hbi, htu, hri, hvt,
    eq_self_iff_true, if_true, List.append_assoc]
  exact ⟨_, _, rfl, rfl⟩

/-- C2 witness: a concrete run whose animated-thumbnail call raises still
returns normally with a null video URL. -/
theorem run_gee_task_video_failure_null_witness :
    (paramsVideo.getD "video" (.vbool false)).truthy = true ∧
    (∀ c cs f d, envVideoFail.videoThumbURL c cs f d = Except.error "video failed") ∧
    ∃ r log, run_gee_task envVideoFail stInit paramsVideo [] = (Except.ok r, log) ∧
      r.video_url = none :=
  ⟨rfl, fun _ _ _ _ => rfl,
    run_gee_task_video_failure_null envVideoFail stInit paramsVideo (fun _ => .vlist [])
      (fun _ _ _ => "http://img") (fun _ _ _ _ _ => .vobj [("0", .vint 100)]) "video failed"
      2020 2022 768 1 rfl (fun _ => rfl) (fun _ _ _ => rfl) (fun _ _ _ _ _ => rfl)
      (fun _ _ _ _ => rfl) rfl rfl rfl rfl rfl⟩

/-- C3: if the histogram sub-request raises, `run_gee_task` still returns
normally, `histogram_yearA` is an object carrying an `error` key with the
exception's message, all five thumbnail URL fields are still the
service-provided URLs, and `POST /chat` still answers with status 200. -/
theorem run_gee_task_histogram_failure_degrades (env : Env) (st : EEState) (params : Params)
    (bi : Geometry → Value) (tu : EEImage → Value → Int → String)
    (vt : EEColl → Value → Int → Int → String) (e : String)
    (a b td fps : Int)
    (hst : st.initialized = true)
    (hbi : ∀ g, env.boundsInfo g = Except.ok (bi g))
    (htu : ∀ i c d, env.thumbURL i c d = Except.ok (tu i c d))
    (hvt : ∀ c cs f d, env.videoThumbURL c cs f d = Except.ok (vt c cs f d))
    (hri : ∀ i red g s m, env.reduceInfo i red g s m = Except.error e)
    (ha : pyInt (params.getD "yearA" (.vint 2020)) = Except.ok a)
    (hb : pyInt (params.getD "yearB" (.vint 2024)) = Except.ok b)
    (htd : pyInt (params.getD "thumb_dims" (.vint 768)) = Except.ok td)
    (hf : pyInt (params.getD "video_fps" (.vint 1)) = Except.ok fps)
    (hab : ¬a > b)
    (hv : (params.getD "video" (.vbool false)).truthy = false) :
    ∃ r log, run_gee_task env st params [] = (Except.ok r, log) ∧
      r.histogram_yearA = Value.vobj [("error", Value.vstr e)] ∧
      r.urls.dw_A_thumb = tu ((yearly_dw_label a (get_roi_from_params params)).visualize
        none (some (0, 8)) (some CLASS_PALETTE)) (bi (get_roi_from_params params)) td ∧
      r.urls.dw_B_thumb = tu ((yearly_dw_label b (get_roi_from_params params)).visualize
        none (some (0, 8)) (some CLASS_PALETTE)) (bi (get_roi_from_params params)) td ∧
      r.urls.s2_A_thumb = tu (yearly_s2_rgb a (get_roi_from_params params))
        (bi (get_roi_from_params params)) td ∧
      r.urls.s2_B_thumb = tu (yearly_s2_rgb b (get_roi_from_params params))
        (bi (get_roi_from_params params)) td ∧
      r.urls.change_thumb = tu (make_change_layer a b (get_roi_from_params params))
        (bi (get_roi_from_params params)) td ∧
      chat env st params = (⟨200, r.toValue⟩, log) := by
  have hI : initialize_ee_from_env env st = Except.ok st := by
    simp [initialize_ee_from_env, hst]
  simp only [chat, run_gee_task, image_thumbnail_url_apply, collection_video_thumb_url_apply,
    M.bind_apply, M.attempt_apply, M.pure_def, M.pure_apply, M.liftExc_apply, M.logReq_apply,
    ite_apply, YEARS_first, YEARS_last, hI, ha, hb, htd, hf, hv, hab, hbi, htu, hri, hvt,
    Bool.false_eq_true, if_false, eq_self_iff_true, if_true, List.append_assoc]
  exact ⟨_, _, rfl, rfl, rfl, rfl, rfl, rfl, rfl, rfl⟩

/-- C3 witness: a concrete run whose histogram call raises still returns
all five URLs, an error-keyed histogram object, and a 200 response. -/
theorem run_gee_task_histogram_failure_degrades_witness :
    (∀ i red g s m, envHistFail.reduceInfo i red g s m = Except.error "histogram failed") ∧
    ∃ r log, run_gee_task envHistFail stInit [] [] = (Except.ok r, log) ∧
      r.histogram_yearA = Value.vobj [("error", Value.vstr "histogram failed")] ∧
      r.urls.dw_A_thumb = "http://img" ∧
      r.urls.dw_B_thumb = "http://img" ∧
      r.urls.s2_A_thumb = "http://img" ∧
      r.urls.s2_B_thumb = "http://img" ∧
      r.urls.change_thumb = "http://img" ∧
      chat envHistFail stInit [] = (⟨200, r.toValue⟩, log) :=
  ⟨fun _ _ _ _ _ => rfl,
    run_gee_task_histogram_failure_degrades envHistFail stInit [] (fun _ => .vlist [])
      (fun _ _ _ => "http://img") (fun _ _ _ _ => "http://video") "histogram failed"
      2020 2024 768 1 rfl (fun _ => rfl) (fun _ _ _ => rfl) (fun _ _ _ _ => rfl)
      (fun _ _ _ _ _ => rfl) rfl rfl rfl rfl (by omega) rfl⟩

/-- C5: for every request body, `POST /chat` turns an exception from
`run_gee_task` into a 500 response whose `error` field carries the
exception's message, and a normal result into a 200 response carrying the
result object. -/
theorem chat_route_spec (env : Env) (st : EEState) (data : Params) :
    (∀ e log, run_gee_task env st data [] = (Except.error e, log) →
      chat env st data = (⟨500, .vobj [("error", .vstr e)]⟩, log)) ∧
    (∀ r log, run_gee_task env st data [] = (Except.ok r, log) →
      chat env st data = (⟨200, r.toValue⟩, log)) := by
  constructor
  · intro e log hx
    simp [chat, hx]
  · intro r log hx
    simp [chat, hx]

/-- C5 witness: missing credentials produce a 500 with the raised message;
a successful run produces a 200 with the result object. -/
theorem chat_route_spec_witness :
    chat envNoKey stFresh [] =
      (⟨500, .vobj [("error", .vstr "GEE_SERVICE_ACCOUNT_KEY not set in environment.")]⟩, []) ∧
    chat envOk stInit params0 = (⟨200, r0.toValue⟩, log0) :=
  ⟨(chat_route_spec envNoKey stFresh []).1 _ _ rfl,
   (chat_route_spec envOk stInit params0).2 _ _ rfl⟩

/-- C6: with an uninitialized session and the key environment variable
unset or empty, `initialize_ee_from_env` raises. -/
theorem initialize_requires_key (env : Env) (st : EEState)
    (hst : st.initialized = false)
    (hk : env.getenv "GEE_SERVICE_ACCOUNT_KEY" = none ∨
          env.getenv "GEE_SERVICE_ACCOUNT_KEY" = some "") :
    initialize_ee_from_env env st =
      Except.error "GEE_SERVICE_ACCOUNT_KEY not set in environment." := by
  rcases hk with hk | hk <;> simp [initialize_ee_from_env, hst, hk]

/-- C6 witness: a fresh session with no key in the environment raises the
configuration error. -/
theorem initialize_requires_key_witness :
    stFresh.initialized = false ∧
    envNoKey.getenv "GEE_SERVICE_ACCOUNT_KEY" = none ∧
    initialize_ee_from_env envNoKey stFresh =
      Except.error "GEE_SERVICE_ACCOUNT_KEY not set in environment." :=
  ⟨rfl, rfl, initialize_requires_key envNoKey stFresh rfl (Or.inl rfl)⟩

/-- C7: when the session is already initialized, `initialize_ee_from_env`
returns immediately with the state unchanged and without raising, and its
outcome does not depend on the environment at all, so redundant calls are
safe. -/
theorem initialize_idempotent (env env' : Env) (st : EEState)
    (hst : st.initialized = true) :
    initialize_ee_from_env env st = Except.ok st ∧
    initialize_ee_from_env env st = initialize_ee_from_env env' st := by
  simp [initialize_ee_from_env, hst]

/-- C7 witness: on an initialized session the guarded initializer is a
no-op even when the environment has no key. -/
theorem initialize_idempotent_witness :
    stInit.initialized = true ∧
    initialize_ee_from_env envNoKey stInit = Except.ok stInit ∧
    initialize_ee_from_env envNoKey stInit = initialize_ee_from_env envOk stInit :=
  ⟨rfl, (initialize_idempotent envNoKey envOk stInit rfl).1,
    (initialize_idempotent envNoKey envOk stInit rfl).2⟩

/-- C4: omitting `bounds` resolves the region of interest to the
hardcoded default rectangle `RECT_BOUNDS`; a well-formed 4-element
numeric array overrides it. -/
theorem get_roi_default_and_override (params : Params) (l : List Value) :
    (List.lookup "bounds" params = none →
      get_roi_from_params params = Geometry.Rectangle RECT_BOUNDS none false) ∧
    (List.lookup "bounds" params = some (.vlist l) → l.length = 4 →
      (∀ v ∈ l, v.isNum = true) →
      get_roi_from_params params = Geometry.Rectangle l none false) := by
  constructor
  · intro hnone
    simp [get_roi_from_params, Params.getD, hnone]
  · intro hsome hlen _
    have hne : l ≠ [] := by
      intro hnil
      rw [hnil] at hlen
      simp at hlen
    simp [get_roi_from_params, Params.getD, hsome, Value.truthy, hlen, hne]

/-- C4 witness: a map without bounds gets the default rectangle, and a
4-element numeric array overrides it. -/
theorem get_roi_default_and_override_witness :
    (List.lookup "bounds" params0 = none ∧
      get_roi_from_params params0 = Geometry.Rectangle RECT_BOUNDS none false) ∧
    (List.lookup "bounds" paramsBounds =
        some (.vlist [.vnum 10, .vnum 20, .vnum 11, .vnum 21]) ∧
      get_roi_from_params paramsBounds =
        Geometry.Rectangle [.vnum 10, .vnum 20, .vnum 11, .vnum 21] none false) :=
  ⟨⟨rfl, (get_roi_default_and_override params0 []).1 rfl⟩,
   ⟨rfl, (get_roi_default_and_override paramsBounds
      [.vnum 10, .vnum 20, .vnum 11, .vnum 21]).2 rfl rfl
      (by intro v hv; simp only [List.mem_cons, List.not_mem_nil, or_false] at hv;
          rcases hv with h | h | h | h <;> subst h <;> rfl)⟩⟩

/-- C10: a malformed `bounds` value — falsy, not a list/tuple, or of
length other than 4 — is silently ignored: the region falls back to the
default rectangle and `get_roi_from_params` never raises. -/
theorem get_roi_malformed_falls_back (params : Params)
    (h : (params.getD "bounds" .vnull).truthy = false ∨
         (params.getD "bounds" .vnull).isList = false ∨
         ∀ l, params.getD "bounds" .vnull = .vlist l → l.length ≠ 4) :
    get_roi_from_params params = Geometry.Rectangle RECT_BOUNDS none false := by
  unfold get_roi_from_params
  rcases hb : params.getD "bounds" .vnull with _ | bv | n | q | s | l | f <;> try rfl
  rw [hb] at h
  rcases h with h | h | h
  · simp only [Value.truthy, Bool.not_eq_true', Bool.not_eq_false] at h
    simp [Value.truthy, h]
  · simp [Value.isList] at h
  · have hlen := h l rfl
    simp [Value.truthy, hlen]

/-- C10 witness: a non-list `bounds` value falls back to the default
rectangle. -/
theorem get_roi_malformed_falls_back_witness :
    (Params.getD [("bounds", Value.vstr "oops")] "bounds" .vnull).isList = false ∧
    get_roi_from_params [("bounds", Value.vstr "oops")] =
      Geometry.Rectangle RECT_BOUNDS none false :=
  ⟨rfl, get_roi_malformed_falls_back [("bounds", Value.vstr "oops")] (Or.inr (Or.inl rfl))⟩
